import Mathlib

/-!
Verification of `lgchannels_generator.py` (LG Channels M3U/EPG generator).

We shallowly embed the Python program: dynamic Python values become the
inductive `PyVal`, exceptions become `Except PyErr`, and each function of
the script (`fetch_data`, `get_channels`, `generate_m3u_playlist`,
`generate_epg_xml`, `format_time`, `main`) becomes a Lean definition that
mirrors its control flow. Network responses are passed in explicitly as
parameters, since the embedding has no I/O.
-/

/-- A dynamically typed Python value (the subset produced by JSON parsing,
plus `None`). Dictionaries are association lists keyed by strings. -/
inductive PyVal where
  | none : PyVal
  | bool : Bool → PyVal
  | int : Int → PyVal
  | str : String → PyVal
  | list : List PyVal → PyVal
  | dict : List (String × PyVal) → PyVal
deriving Repr

/-- Python exceptions that the embedded code can raise. -/
inductive PyErr where
  | attributeError : PyErr
  | typeError : PyErr
deriving Repr, DecidableEq

/-- Python truthiness (`bool(v)`): `None`, `False`, `0`, `""`, `[]`, and
`{}` are falsy, everything else truthy. -/
def pyTruthy : PyVal → Bool
  | .none => false
  | .bool b => b
  | .int n => n != 0
  | .str s => s != ""
  | .list l => !l.isEmpty
  | .dict d => !d.isEmpty

/-- Lookup of a key in a Python dict (association list, first match). -/
def dictLookup (d : List (String × PyVal)) (key : String) : Option PyVal :=
  match d with
  | [] => Option.none
  | (k, v) :: rest => if k = key then some v else dictLookup rest key

/-- `d.get(key, default)` on a dict given as an association list. -/
def dictGet (d : List (String × PyVal)) (key : String) (default : PyVal) : PyVal :=
  (dictLookup d key).getD default

/-- `v.get(key, default)`: succeeds only on dicts, raises `AttributeError`
otherwise (lists, strings, numbers, and `None` have no `.get`). -/
def pyGet (v : PyVal) (key : String) (default : PyVal) : Except PyErr PyVal :=
  match v with
  | .dict d => .ok (dictGet d key default)
  | _ => .error .attributeError

/-- Whether the character list `cs` starts with the character list `ps`. -/
def charsStartWith : List Char → List Char → Bool
  | _, [] => true
  | [], _ :: _ => false
  | c :: cs, p :: ps => c == p && charsStartWith cs ps

/-- The characters of the string literal "http". -/
def httpChars : List Char := ['h', 't', 't', 'p']

/-- `v.startswith(pre)`: defined on strings, `AttributeError` otherwise. -/
def pyStartsWith (v : PyVal) (pre : List Char) : Except PyErr Bool :=
  match v with
  | .str s => .ok (charsStartWith s.data pre)
  | _ => .error .attributeError

/-- Python `repr` of a value (string escaping inside `repr` of strings is
not modelled; no claim depends on it). -/
def pyRepr : PyVal → String
  | .none => "None"
  | .bool b => if b then "True" else "False"
  | .int n => toString n
  | .str s => "'" ++ s ++ "'"
  | .list l => "[" ++ String.intercalate ", " (l.attach.map fun x => pyRepr x.1) ++ "]"
  | .dict d =>
      "\x7b" ++
        String.intercalate ", "
          (d.attach.map fun x => "'" ++ x.1.1 ++ "': " ++ pyRepr x.1.2) ++ "\x7d"
decreasing_by
  · have h1 := List.sizeOf_lt_of_mem x.2
    simp only [PyVal.list.sizeOf_spec]
    omega
  · have h1 := List.sizeOf_lt_of_mem x.2
    have h2 : sizeOf x.1.2 < sizeOf x.1 := by
      obtain ⟨⟨a, b⟩, hx⟩ := x
      simp only [Prod.mk.sizeOf_spec]
      omega
    simp only [PyVal.dict.sizeOf_spec]
    omega

/-- Python `str` of a value, as used by f-string interpolation. -/
def pyStr : PyVal → String
  | .none => "None"
  | .bool b => if b then "True" else "False"
  | .int n => toString n
  | .str s => s
  | .list l => pyRepr (.list l)
  | .dict d => pyRepr (.dict d)

/-- Coerce a Python list's elements to strings, raising `TypeError` at the
first non-string element — the check `str.join` performs. -/
def asStrList : List PyVal → Except PyErr (List String)
  | [] => .ok []
  | .str s :: rest => (asStrList rest).map (s :: ·)
  | _ :: _ => .error .typeError

/-- `sep.join(v)`: joins a list of strings (TypeError on a non-string
element), iterates a string as its characters, a dict as its keys, and
raises `TypeError` on non-iterables. -/
def pyJoin (sep : String) (v : PyVal) : Except PyErr String :=
  match v with
  | .list l => (asStrList l).map (String.intercalate sep)
  | .str s => .ok (String.intercalate sep (s.data.map fun c => String.singleton c))
  | .dict d => .ok (String.intercalate sep (d.map fun kv => kv.1))
  | _ => .error .typeError

/-- Substring containment on character lists. -/
def charsContain (cs ps : List Char) : Bool :=
  match cs with
  | [] => ps.isEmpty
  | _ :: rest => charsStartWith cs ps || charsContain rest ps

/-- `key in v`: key membership for dicts, element membership for lists,
substring test for strings, `TypeError` otherwise. -/
def pyContains (v : PyVal) (key : String) : Except PyErr Bool :=
  match v with
  | .dict d => .ok (dictLookup d key).isSome
  | .list l => .ok (l.any fun x =>
      match x with
      | .str s => s == key
      | _ => false)
  | .str s => .ok (charsContain s.data key.data)
  | _ => .error .typeError

/-! ## Timestamp conversion (`format_time`, lines 196-205 of the script) -/

/-- The value of a decimal digit character, `Option.none` otherwise. -/
def digitVal? (c : Char) : Option Nat :=
  if 48 ≤ c.toNat && c.toNat ≤ 57 then some (c.toNat - 48) else Option.none

/-- Two decimal digit characters as a number. -/
def twoDigits (a b : Char) : Option Nat := do
  let x ← digitVal? a
  let y ← digitVal? b
  pure (10 * x + y)

/-- Four decimal digit characters as a number. -/
def fourDigits (a b c d : Char) : Option Nat := do
  let x ← twoDigits a b
  let y ← twoDigits c d
  pure (100 * x + y)

/-- Whether `y` is a Gregorian leap year. -/
def isLeapYear (y : Nat) : Bool :=
  y % 4 == 0 && (y % 100 != 0 || y % 400 == 0)

/-- Days in month `m` of year `y` (1-based month). -/
def daysInMonth (y m : Nat) : Nat :=
  if m == 2 then (if isLeapYear y then 29 else 28)
  else if m == 4 || m == 6 || m == 9 || m == 11 then 30
  else 31

/-- A parsed `datetime`: calendar fields plus an optional UTC offset in
minutes (`Option.none` for an offset-naive value). -/
structure PyDateTime where
  year : Nat
  month : Nat
  day : Nat
  hour : Nat
  minute : Nat
  second : Nat
  tzOffsetMinutes : Option Int
deriving Repr, DecidableEq

/-- Count leading decimal digits, returning the count and the rest. -/
def takeDigits : List Char → Nat × List Char
  | [] => (0, [])
  | c :: rest =>
      match digitVal? c with
      | some _ => let (n, r) := takeDigits rest; (n + 1, r)
      | Option.none => (0, c :: rest)

/-- Skip a fractional-seconds part: either nothing, or a dot followed by
exactly 3 or 6 digits (the forms `fromisoformat` accepts). -/
def skipFraction : List Char → Option (List Char)
  | '.' :: rest =>
      let (n, r) := takeDigits rest
      if n == 3 || n == 6 then some r else Option.none
  | rest => some rest

/-- Parse an optional trailing UTC offset `±HH:MM` (empty input means an
offset-naive value). The offset becomes signed minutes. -/
def parseTzOffset : List Char → Option (Option Int)
  | [] => some Option.none
  | '+' :: h1 :: h2 :: ':' :: m1 :: m2 :: [] => do
      let h ← twoDigits h1 h2
      let m ← twoDigits m1 m2
      if h ≤ 23 && m ≤ 59 then pure (some ((h * 60 + m : Nat) : Int)) else failure
  | '-' :: h1 :: h2 :: ':' :: m1 :: m2 :: [] => do
      let h ← twoDigits h1 h2
      let m ← twoDigits m1 m2
      if h ≤ 23 && m ≤ 59 then pure (some (-((h * 60 + m : Nat) : Int))) else failure
  | _ => Option.none

/-- Parse the time-of-day portion `HH[:MM[:SS[.fff]]]` followed by an
optional offset, as accepted by `datetime.fromisoformat`. -/
def parseTimePart : List Char → Option (Nat × Nat × Nat × Option Int)
  | h1 :: h2 :: rest => do
      let h ← twoDigits h1 h2
      if h ≤ 23 then
        match rest with
        | [] => pure (h, 0, 0, Option.none)
        | ':' :: m1 :: m2 :: rest2 => do
            let mi ← twoDigits m1 m2
            if mi ≤ 59 then
              match rest2 with
              | [] => pure (h, mi, 0, Option.none)
              | ':' :: s1 :: s2 :: rest3 => do
                  let se ← twoDigits s1 s2
                  if se ≤ 59 then do
                    let rest4 ← skipFraction rest3
                    let tz ← parseTzOffset rest4
                    pure (h, mi, se, tz)
                  else failure
              | other => do
                  let tz ← parseTzOffset other
                  pure (h, mi, 0, tz)
            else failure
        | other => do
            let tz ← parseTzOffset other
            pure (h, 0, 0, tz)
      else failure
  | _ => Option.none

/-- Model of `datetime.fromisoformat`: `YYYY-MM-DD`, optionally followed by
a one-character separator and a time (with optional fraction and offset).
Returns `Option.none` where the Python call raises `ValueError`. -/
def parseIso (s : String) : Option PyDateTime :=
  match s.data with
  | y1 :: y2 :: y3 :: y4 :: '-' :: m1 :: m2 :: '-' :: d1 :: d2 :: rest => do
      let y ← fourDigits y1 y2 y3 y4
      let mo ← twoDigits m1 m2
      let dy ← twoDigits d1 d2
      if 1 ≤ y && 1 ≤ mo && mo ≤ 12 && 1 ≤ dy && dy ≤ daysInMonth y mo then
        match rest with
        | [] => pure ⟨y, mo, dy, 0, 0, 0, Option.none⟩
        | _sep :: timeRest => do
            let (h, mi, se, tz) ← parseTimePart timeRest
            pure ⟨y, mo, dy, h, mi, se, tz⟩
      else failure
  | _ => Option.none

/-- Replace every occurrence of the character `Z` by `+00:00`, as
`time_str.replace('Z', '+00:00')` does. -/
def replaceZchars : List Char → List Char
  | [] => []
  | 'Z' :: rest => '+' :: '0' :: '0' :: ':' :: '0' :: '0' :: replaceZchars rest
  | c :: rest => c :: replaceZchars rest

/-- String-level wrapper for `replaceZchars`. -/
def replaceZ (s : String) : String := ⟨replaceZchars s.data⟩

/-- A natural number zero-padded to two decimal digits (`%m`, `%d`, ...). -/
def pad2 (n : Nat) : String :=
  if n < 10 then "0" ++ toString n else toString n

/-- A natural number zero-padded to four decimal digits (`%Y`). -/
def pad4 (n : Nat) : String :=
  if n < 10 then "000" ++ toString n
  else if n < 100 then "00" ++ toString n
  else if n < 1000 then "0" ++ toString n
  else toString n

/-- `%z`: empty for an offset-naive value, otherwise `±HHMM`. -/
def tzOffsetStr : Option Int → String
  | Option.none => ""
  | some off =>
      (if off < 0 then "-" else "+") ++ pad2 (off.natAbs / 60) ++ pad2 (off.natAbs % 60)

/-- The date-time digits of `dt.strftime('%Y%m%d%H%M%S')`. -/
def dateTimeDigits (dt : PyDateTime) : String :=
  pad4 dt.year ++ pad2 dt.month ++ pad2 dt.day ++
    pad2 dt.hour ++ pad2 dt.minute ++ pad2 dt.second

/-- `dt.strftime('%Y%m%d%H%M%S %z')`. -/
def strftimeXmltv (dt : PyDateTime) : String :=
  dateTimeDigits dt ++ " " ++ tzOffsetStr dt.tzOffsetMinutes

/-- `format_time` (script lines 196-205): falsy input yields `""`; a
non-string raises `AttributeError` at `.replace`, which the function
catches and turns into `""`; otherwise `Z` is replaced by `+00:00`, the
result parsed with `fromisoformat` (a `ValueError` is caught into `""`)
and formatted with `strftime('%Y%m%d%H%M%S %z')`. -/
def format_time (time_str : PyVal) : String :=
  if !pyTruthy time_str then ""
  else
    match time_str with
    | .str s =>
        match parseIso (replaceZ s) with
        | some dt => strftimeXmltv dt
        | Option.none => ""
    | _ => ""

example : format_time (.str "2024-01-15T10:30:00Z") = "20240115103000 +0000" := by rfl
example : format_time (.str "2024-01-15T10:30:00") = "20240115103000 " := by rfl
example : format_time (.str "") = "" := by rfl
example : format_time .none = "" := by rfl
example : format_time (.str "garbage") = "" := by rfl
example : format_time (.int 5) = "" := by rfl
example : format_time (.str "2024-01-15T10:30:00-05:30") = "20240115103000 -0530" := by rfl

/-! ## Configuration constants (script lines 13-35) -/

/-- `BASE_URL` of the script. -/
def BASE_URL : String := "https://us.lgchannels.com"

/-- `PLAYLIST_FILENAME` of the script. -/
def PLAYLIST_FILENAME : String := "lgchannels.m3u"

/-- `EPG_FILENAME` of the script. -/
def EPG_FILENAME : String := "lgchannels_epg.xml.gz"

/-! ## Fetcher (`fetch_data`, script lines 54-77) -/

/-- Outcome of one HTTP attempt: a JSON body, a request-level failure
(network error, timeout, non-2xx status), or a body that is not valid
JSON. With the `requests` library, the JSON decode error raised by
`response.json()` is a subclass of `RequestException`, so the script's
`except` clause catches both failure kinds. -/
inductive AttemptOutcome where
  | ok : PyVal → AttemptOutcome
  | httpError : AttemptOutcome
  | jsonError : AttemptOutcome
deriving Repr

/-- Whether an attempt failed (either failure kind). -/
def AttemptOutcome.isFailure : AttemptOutcome → Bool
  | .ok _ => false
  | .httpError => true
  | .jsonError => true

/-- Collapse a JSON-decode failure into a plain request failure; the
identity on the other outcomes. -/
def canonOutcome : AttemptOutcome → AttemptOutcome
  | .jsonError => .httpError
  | o => o

/-- The loop body of `fetch_data` over the remaining attempt indices
(`for attempt in range(retries + 1)`). Returns the parsed JSON (or
`Option.none` after exhaustion), the chronological list of sleep
durations (`time.sleep(1 * (attempt + 1))`), and the number of attempts
made. `outcomes i` is what attempt number `i` would produce. -/
def fetchLoop (outcomes : Nat → AttemptOutcome) (retries : Nat) :
    List Nat → Option PyVal × List Nat × Nat
  | [] => (Option.none, [], 0)
  | attempt :: rest =>
      match outcomes attempt with
      | .ok v => (some v, [], 1)
      | _ =>
          if attempt == retries then (Option.none, [], 1)
          else
            ((fetchLoop outcomes retries rest).1,
              1 * (attempt + 1) :: (fetchLoop outcomes retries rest).2.1,
              (fetchLoop outcomes retries rest).2.2 + 1)

/-- `fetch_data(url, ...)` with a given retry budget, abstracted over the
network: attempt `i` yields `outcomes i`. -/
def fetch_data (outcomes : Nat → AttemptOutcome) (retries : Nat) :
    Option PyVal × List Nat × Nat :=
  fetchLoop outcomes retries (List.range (retries + 1))

example : fetch_data (fun _ => .httpError) 2 = (Option.none, [1, 2], 3) := by rfl
example : fetch_data (fun i => if i == 1 then .ok (.int 7) else .httpError) 2
    = (some (.int 7), [1], 2) := by rfl

/-! ## Channel normalizer (`get_channels`, script lines 79-117) -/

/-- The canonical channel record built at script lines 94-102. Field
values stay dynamically typed, as in the Python dict. -/
structure ChannelInfo where
  id : PyVal
  name : PyVal
  number : PyVal
  logo : PyVal
  stream_url : PyVal
  description : PyVal
  categories : PyVal
deriving Repr

/-- The URL-absolutizing step at script lines 104-110: a truthy value not
starting with `"http"` is prefixed with `BASE_URL` (the `startswith` call
raises `AttributeError` on a truthy non-string). -/
def fixUrl (v : PyVal) : Except PyErr PyVal :=
  if pyTruthy v then do
    let b ← pyStartsWith v httpChars
    if b then pure v else pure (.str (BASE_URL ++ pyStr v))
  else pure v

/-- The body of the `try` block at script lines 93-112 for one raw entry:
every `.get` raises `AttributeError` unless the entry is a dict; on a
dict, the record is built and then the stream and logo URLs are made
absolute (in that order, as in the script). Any raised exception is
returned in the `Except` error. -/
def processChannel (channel : PyVal) : Except PyErr ChannelInfo :=
  match channel with
  | .dict d => do
      let stream ← fixUrl (dictGet d "streamUrl" (.str ""))
      let logo ← fixUrl (dictGet d "logoUrl" (.str ""))
      pure ⟨dictGet d "channelId" .none, dictGet d "name" (.str "Unknown"),
        dictGet d "channelNumber" (.str "0"), logo, stream,
        dictGet d "description" (.str ""), dictGet d "categories" (.list [])⟩
  | _ => .error .attributeError

/-- The `for channel in data['channels']` loop (script lines 92-114),
including the `except` handler, which logs
`f"Error processing channel {channel.get('channelId')}: {e}"` — that
handler itself evaluates `channel.get('channelId')`, and so raises
`AttributeError` when the offending entry is not a dict. Returns the
accumulated records and the warning messages, or the uncaught error. -/
def channelsLoop : List PyVal → Except PyErr (List ChannelInfo × List String)
  | [] => .ok ([], [])
  | c :: rest =>
      match processChannel c with
      | .ok info => do
          let (l, w) ← channelsLoop rest
          pure (info :: l, w)
      | .error _ =>
          match pyGet c "channelId" .none with
          | .ok cid => do
              let (l, w) ← channelsLoop rest
              pure (l, ("Error processing channel " ++ pyStr cid) :: w)
          | .error e => .error e

/-- Iterate a Python value as `for channel in data['channels']` would:
a list yields its elements, a string its characters, a dict its keys;
anything else raises `TypeError`. -/
def pyIter (v : PyVal) : Except PyErr (List PyVal) :=
  match v with
  | .list l => .ok l
  | .str s => .ok (s.data.map fun c => .str (String.singleton c))
  | .dict d => .ok (d.map fun kv => .str kv.1)
  | _ => .error .typeError

/-- `get_channels()` (script lines 79-117), abstracted over the lineup
response: `resp` is what `fetch_data` returned (`Option.none` for a failed
fetch). Returns the normalized records together with the logged warnings,
or the uncaught exception. -/
def get_channels (resp : Option PyVal) : Except PyErr (List ChannelInfo × List String) :=
  match resp with
  | Option.none => .ok ([], [])
  | some data =>
      if !pyTruthy data then .ok ([], [])
      else
        match pyContains data "channels" with
        | .error e => .error e
        | .ok false => .ok ([], [])
        | .ok true =>
            match data with
            | .dict d =>
                match dictLookup d "channels" with
                | some chansVal =>
                    match pyIter chansVal with
                    | .ok entries => channelsLoop entries
                    | .error e => .error e
                | Option.none => .ok ([], [])
            | .list l =>
                match pyIter (.list l) with
                | _ => .error .typeError
            | _ => .error .typeError

example :
    get_channels (some (.dict [("channels", .list [.dict [("channelId", .str "c1"),
      ("name", .str "News"), ("streamUrl", .str "/live/1")]])]))
    = .ok ([⟨.str "c1", .str "News", .str "0", .str "",
        .str "https://us.lgchannels.com/live/1", .str "", .list []⟩], []) := by rfl

/-! ## Playlist renderer (`generate_m3u_playlist`, script lines 140-155) -/

/-- One loop iteration of the playlist body (script lines 148-153) for a
channel that passed the stream-URL truthiness check; the `','.join` call
may raise `TypeError`. -/
def m3uEntryOf (c : ChannelInfo) : Except PyErr String := do
  let groups ← pyJoin "," c.categories
  pure ("#EXTINF:-1 tvg-id=\"" ++ pyStr c.id ++ "\" " ++
    "tvg-name=\"" ++ pyStr c.name ++ "\" " ++
    "tvg-logo=\"" ++ pyStr c.logo ++ "\" " ++
    "group-title=\"" ++ groups ++ "\"," ++
    pyStr c.name ++ "\n" ++
    pyStr c.stream_url ++ "\n")

/-- The accumulation loop of `generate_m3u_playlist` (script lines
144-153): channels with a falsy `stream_url` are skipped. -/
def m3uBody : List ChannelInfo → Except PyErr String
  | [] => .ok ""
  | c :: rest =>
      if !pyTruthy c.stream_url then m3uBody rest
      else do
        let entry ← m3uEntryOf c
        let body ← m3uBody rest
        pure (entry ++ body)

/-- `generate_m3u_playlist(channels)` (script lines 140-155). -/
def generate_m3u_playlist (channels : List ChannelInfo) : Except PyErr String :=
  (m3uBody channels).map (fun body => "#EXTM3U x-tvg-url=" ++ EPG_FILENAME ++ "\n" ++ body)

/-- A well-typed canonical channel record, as described by the data model:
every string-valued field holds a string and `categories` a list of
strings. Used to state rendering claims over well-formed inputs. -/
structure TChannel where
  id : String
  name : String
  number : String
  logo : String
  stream_url : String
  description : String
  categories : List String
deriving Repr, DecidableEq

/-- Embed a well-typed channel record into the dynamic representation. -/
def TChannel.toInfo (t : TChannel) : ChannelInfo :=
  ⟨.str t.id, .str t.name, .str t.number, .str t.logo, .str t.stream_url,
    .str t.description, .list (t.categories.map PyVal.str)⟩

/-- Concatenation of a list of strings. -/
def concatStrs : List String → String
  | [] => ""
  | s :: rest => s ++ concatStrs rest

/-- The two-line playlist entry the specification describes for a
well-typed channel record. -/
def specM3uEntry (t : TChannel) : String :=
  "#EXTINF:-1 tvg-id=\"" ++ t.id ++ "\" " ++
    "tvg-name=\"" ++ t.name ++ "\" " ++
    "tvg-logo=\"" ++ t.logo ++ "\" " ++
    "group-title=\"" ++ String.intercalate "," t.categories ++ "\"," ++
    t.name ++ "\n" ++
    t.stream_url ++ "\n"

example :
    generate_m3u_playlist ([⟨"c1", "News", "1", "l", "http://s/1", "", ["A", "B"]⟩,
        ⟨"c2", "Misc", "2", "l2", "", "", []⟩].map TChannel.toInfo)
    = .ok ("#EXTM3U x-tvg-url=lgchannels_epg.xml.gz\n" ++
        "#EXTINF:-1 tvg-id=\"c1\" tvg-name=\"News\" tvg-logo=\"l\" group-title=\"A,B\",News\n" ++
        "http://s/1\n") := by rfl

/-! ## Guide renderer (`generate_epg_xml`, script lines 157-194) -/

/-- An ElementTree element: tag, attributes (in insertion order), optional
text, and child elements. Attribute and text values stay dynamically
typed, since the script assigns raw Python values to them. -/
inductive XmlNode where
  | elem : String → List (String × PyVal) → Option PyVal → List XmlNode → XmlNode
deriving Repr

/-- The tag of an element. -/
def XmlNode.tag : XmlNode → String
  | .elem t _ _ _ => t

/-- The attribute list of an element. -/
def XmlNode.attrs : XmlNode → List (String × PyVal)
  | .elem _ a _ _ => a

/-- The text of an element. -/
def XmlNode.text : XmlNode → Option PyVal
  | .elem _ _ t _ => t

/-- The child elements of an element. -/
def XmlNode.children : XmlNode → List XmlNode
  | .elem _ _ _ c => c

/-- The `<channel>` element built at script lines 163-166: an `id`
attribute (via `str(...)`), a `display-name` child holding the name, and
an `icon` child exactly when the logo is truthy. -/
def channelXmlElem (c : ChannelInfo) : XmlNode :=
  .elem "channel" [("id", .str (pyStr c.id))] Option.none
    ([.elem "display-name" [] (some c.name) []] ++
      (if pyTruthy c.logo then [.elem "icon" [("src", c.logo)] Option.none []] else []))

/-- The `<category>` children built at script lines 184-190: one per list
element when `genre` is a list, one for a non-list `genre`, none when the
key is absent. -/
def genreCategoryElems (genre : Option PyVal) : List XmlNode :=
  match genre with
  | Option.none => []
  | some (.list l) => l.map fun g => .elem "category" [] (some g) []
  | some v => [.elem "category" [] (some v) []]

/-- The `<programme>` element built from a program dict (script lines
173-190): `channel`/`start`/`stop` attributes, a `title` child, an
optional `desc` child, and the genre categories. -/
def buildProgrammeDict (chanId : PyVal) (d : List (String × PyVal)) : XmlNode :=
  .elem "programme"
    [("channel", .str (pyStr chanId)),
      ("start", .str (format_time (dictGet d "startTime" .none))),
      ("stop", .str (format_time (dictGet d "endTime" .none)))]
    Option.none
    ([.elem "title" [] (some (dictGet d "title" (.str "Unknown"))) []] ++
      (match dictLookup d "description" with
        | some v => [.elem "desc" [] (some v) []]
        | Option.none => []) ++
      genreCategoryElems (dictLookup d "genre"))

/-- One iteration of the per-program `try` block: a non-dict program
raises `AttributeError` at `program.get('startTime')` before any element
is attached; a dict program never raises. -/
def buildProgramme (chanId : PyVal) (p : PyVal) : Except PyErr XmlNode :=
  match p with
  | .dict d => .ok (buildProgrammeDict chanId d)
  | _ => .error .attributeError

/-- `generate_epg_xml(channels)` (script lines 157-194), abstracted over
the network: `epg cid` is the program list `get_epg_data(cid)` returns
(already `[]` when the fetch failed or the `programs` key was absent).
Channel elements come first, then the programme elements; a program whose
`try` block raises is skipped with a logged warning. -/
def generate_epg_xml (channels : List ChannelInfo) (epg : PyVal → List PyVal) : XmlNode :=
  .elem "tv"
    [("generator-info-name", .str "LG Channels EPG Generator"),
      ("generator-info-url", .str "https://github.com/yourusername/lgchannels-epg")]
    Option.none
    (channels.map channelXmlElem ++
      (channels.map (fun c => (epg c.id).filterMap
        (fun p => (buildProgramme c.id p).toOption))).flatten)

/-! ## Orchestrator (`main`, script lines 228-251) -/

/-- An artifact written into the output directory. -/
inductive Artifact where
  | m3uFile : String → Artifact
  | epgFile : XmlNode → Artifact
deriving Repr

/-- `main()` (script lines 228-251), abstracted over the two network
boundaries: `resp` is the lineup fetch result and `epg` the per-channel
program lists. Returns the artifacts written, in order; an empty channel
list aborts before writing anything, and an exception escaping
`generate_m3u_playlist` (called outside any `try`) propagates. -/
def mainRun (resp : Option PyVal) (epg : PyVal → List PyVal) :
    Except PyErr (List Artifact) := do
  let (channels, _) ← get_channels resp
  if channels.isEmpty then pure []
  else do
    let m3u ← generate_m3u_playlist channels
    let tree := generate_epg_xml channels epg
    pure [.m3uFile m3u, .epgFile tree]

example : mainRun Option.none (fun _ => []) = .ok [] := by rfl
example : mainRun (some (.dict [("foo", .int 1)])) (fun _ => []) = .ok [] := by rfl

/-! ## Theorems -/

/-- C2: the timestamp converter maps `"2024-01-15T10:30:00Z"` to
`"20240115103000 +0000"`, maps the empty string and the null value to the
empty string, and for every unparseable input — a string rejected by the
ISO-8601 parser, or a non-string value (whose `.replace` raises
`AttributeError`) — returns the empty string rather than raising. -/
theorem format_time_spec :
    format_time (.str "2024-01-15T10:30:00Z") = "20240115103000 +0000" ∧
    format_time (.str "") = "" ∧
    format_time PyVal.none = "" ∧
    (∀ s : String, parseIso (replaceZ s) = Option.none → format_time (.str s) = "") ∧
    (∀ v : PyVal, (∀ s : String, v ≠ .str s) → format_time v = "") := by
  refine ⟨rfl, rfl, rfl, ?_, ?_⟩
  · intro s h
    show (if (!pyTruthy (.str s)) = true then ""
      else match parseIso (replaceZ s) with
        | some dt => strftimeXmltv dt
        | Option.none => "") = ""
    rw [h]
    split <;> rfl
  · intro v hv
    cases v with
    | str s => exact absurd rfl (hv s)
    | none => rfl
    | bool b => cases b <;> rfl
    | int n => unfold format_time; split <;> rfl
    | list l => unfold format_time; split <;> rfl
    | dict d => unfold format_time; split <;> rfl

/-- Witness for C2 at concrete unparseable inputs: a garbage string and a
non-string value. -/
theorem format_time_spec_witness :
    format_time (.str "not-a-timestamp") = "" ∧ format_time (.int 5) = "" :=
  ⟨format_time_spec.2.2.2.1 "not-a-timestamp" rfl,
    format_time_spec.2.2.2.2 (.int 5) (fun _ h => PyVal.noConfusion h)⟩

/-- C10: a parseable timestamp with no timezone offset formats as the
14-digit date-time followed by a single space and nothing else, because
`%z` renders as the empty string for an offset-naive datetime. -/
theorem format_time_naive_trailing_space (s : String) (y mo dy h mi se : Nat)
    (hp : parseIso (replaceZ s) = some ⟨y, mo, dy, h, mi, se, Option.none⟩) :
    format_time (.str s) = dateTimeDigits ⟨y, mo, dy, h, mi, se, Option.none⟩ ++ " " := by
  have hs : s ≠ "" := by
    intro h0
    rw [h0] at hp
    exact Option.noConfusion hp
  show (if (!pyTruthy (.str s)) = true then ""
    else match parseIso (replaceZ s) with
      | some dt => strftimeXmltv dt
      | Option.none => "")
    = dateTimeDigits ⟨y, mo, dy, h, mi, se, Option.none⟩ ++ " "
  have ht : (!pyTruthy (.str s)) = false := by
    simp [pyTruthy, hs]
  rw [ht, hp]
  show strftimeXmltv _ = _
  unfold strftimeXmltv tzOffsetStr
  simp only []
  exact String.append_empty _

/-- Witness for C10 at the concrete input `"2024-01-15T10:30:00"`. -/
theorem format_time_naive_trailing_space_witness :
    format_time (.str "2024-01-15T10:30:00") = "20240115103000 " :=
  Eq.trans
    (format_time_naive_trailing_space "2024-01-15T10:30:00" 2024 1 15 10 30 0 rfl)
    rfl

lemma fetchLoop_attempts_le (outcomes : Nat → AttemptOutcome) (retries : Nat)
    (l : List Nat) : (fetchLoop outcomes retries l).2.2 ≤ l.length := by
  induction l with
  | nil => simp [fetchLoop]
  | cons a rest ih =>
      simp only [fetchLoop, List.length_cons]
      split
      · simp
      · split
        · simp
        · show (fetchLoop outcomes retries rest).2.2 + 1 ≤ rest.length + 1
          omega

lemma fetchLoop_canon (outcomes : Nat → AttemptOutcome) (retries : Nat)
    (l : List Nat) :
    fetchLoop (fun i => canonOutcome (outcomes i)) retries l
      = fetchLoop outcomes retries l := by
  induction l with
  | nil => rfl
  | cons a rest ih =>
      simp only [fetchLoop]
      cases outcomes a with
      | ok v => rfl
      | httpError => rw [ih]; rfl
      | jsonError => rw [ih]; rfl

lemma fetch_all_fail (outcomes : Nat → AttemptOutcome)
    (hfail : ∀ i, (outcomes i).isFailure = true) :
    fetch_data outcomes 2 = (Option.none, [1, 2], 3) := by
  have cases3 : ∀ i : Nat, outcomes i = .httpError ∨ outcomes i = .jsonError := by
    intro i
    have hi := hfail i
    cases h : outcomes i with
    | ok v => rw [h] at hi; exact absurd hi (by simp [AttemptOutcome.isFailure])
    | httpError => exact Or.inl rfl
    | jsonError => exact Or.inr rfl
  have hr : List.range 3 = [0, 1, 2] := by rfl
  show fetchLoop outcomes 2 (List.range 3) = (Option.none, [1, 2], 3)
  rw [hr]
  simp only [fetchLoop]
  rcases cases3 0 with h0 | h0 <;> rcases cases3 1 with h1 | h1 <;>
    rcases cases3 2 with h2 | h2 <;> rw [h0, h1, h2] <;> rfl

/-- C7: the fetcher makes at most `retries + 1` attempts; a JSON-decode
failure is handled identically to a request failure; and with the default
of 2 retries, when every attempt fails it makes exactly 3 attempts,
sleeping 1 second after the first failure and 2 seconds after the second,
and returns the failure value `Option.none` instead of raising. -/
theorem fetch_data_spec (outcomes : Nat → AttemptOutcome) (retries : Nat) :
    (fetch_data outcomes retries).2.2 ≤ retries + 1 ∧
    fetch_data (fun i => canonOutcome (outcomes i)) retries = fetch_data outcomes retries ∧
    ((∀ i, (outcomes i).isFailure = true) →
      fetch_data outcomes 2 = (Option.none, [1, 2], 3)) := by
  refine ⟨?_, ?_, fetch_all_fail outcomes⟩
  · have h := fetchLoop_attempts_le outcomes retries (List.range (retries + 1))
    simpa [fetch_data] using h
  · exact fetchLoop_canon outcomes retries (List.range (retries + 1))

/-- Witness for C7: all three attempts fail, so the fetcher returns the
failure value after sleeping 1 and 2 seconds. -/
theorem fetch_data_spec_witness :
    fetch_data (fun _ => AttemptOutcome.httpError) 2 = (Option.none, [1, 2], 3) :=
  (fetch_data_spec (fun _ => AttemptOutcome.httpError) 2).2.2 (fun _ => rfl)

lemma exceptBind_ok {α β : Type} (a : α) (f : α → Except PyErr β) :
    Except.bind (.ok a) f = f a := rfl

lemma exceptBind_error {α β : Type} (e : PyErr) (f : α → Except PyErr β) :
    Except.bind (.error e) f = .error e := rfl

lemma processChannel_dict (d : List (String × PyVal)) :
    processChannel (.dict d)
      = Except.bind (fixUrl (dictGet d "streamUrl" (.str ""))) (fun stream =>
          Except.bind (fixUrl (dictGet d "logoUrl" (.str ""))) (fun logo =>
            .ok ⟨dictGet d "channelId" .none, dictGet d "name" (.str "Unknown"),
              dictGet d "channelNumber" (.str "0"), logo, stream,
              dictGet d "description" (.str ""), dictGet d "categories" (.list [])⟩)) := rfl

lemma fixUrl_str (s : String) :
    fixUrl (.str s)
      = .ok (.str (if s = "" then s
          else if charsStartWith s.data httpChars then s else BASE_URL ++ s)) := by
  by_cases hs : s = ""
  · subst hs; rfl
  · rw [if_neg hs]
    show (if pyTruthy (.str s) = true then _ else _) = _
    rw [if_pos (by simp [pyTruthy, hs])]
    show Except.bind (pyStartsWith (.str s) httpChars) _ = _
    rw [show pyStartsWith (.str s) httpChars = .ok (charsStartWith s.data httpChars) from rfl,
      exceptBind_ok]
    by_cases hb : charsStartWith s.data httpChars
    · rw [hb, if_pos rfl]; rfl
    · rw [Bool.not_eq_true] at hb
      rw [hb]
      simp only [Bool.false_eq_true, if_false]
      rfl

/-- C3: in the channel normalizer, a string-valued stream or logo URL
that is non-empty and does not begin with `"http"` is rewritten to the
configured base origin followed by the original value; a URL beginning
with `"http"` passes through unchanged; an empty URL stays empty. -/
theorem url_rewrite (d : List (String × PyVal)) (info : ChannelInfo) (s : String)
    (hp : processChannel (.dict d) = .ok info) :
    (dictGet d "streamUrl" (.str "") = .str s →
      info.stream_url = .str (if s = "" then s
        else if charsStartWith s.data httpChars then s else BASE_URL ++ s)) ∧
    (dictGet d "logoUrl" (.str "") = .str s →
      info.logo = .str (if s = "" then s
        else if charsStartWith s.data httpChars then s else BASE_URL ++ s)) := by
  rw [processChannel_dict] at hp
  constructor
  · intro hs
    rw [hs, fixUrl_str, exceptBind_ok] at hp
    cases hlogo : fixUrl (dictGet d "logoUrl" (.str "")) with
    | error e =>
        rw [hlogo, exceptBind_error] at hp
        exact absurd hp (by simp)
    | ok lv =>
        rw [hlogo, exceptBind_ok] at hp
        have := Except.ok.inj hp
        rw [← this]
  · intro hs
    cases hstream : fixUrl (dictGet d "streamUrl" (.str "")) with
    | error e =>
        rw [hstream, exceptBind_error] at hp
        exact absurd hp (by simp)
    | ok sv =>
        rw [hstream, exceptBind_ok, hs, fixUrl_str, exceptBind_ok] at hp
        have := Except.ok.inj hp
        rw [← this]

/-- Witness for C3: a root-relative stream URL is prefixed with the base
origin, an absolute logo URL passes through. -/
theorem url_rewrite_witness :
    (⟨.none, .str "Unknown", .str "0", .str "http://cdn/x.png",
        .str "https://us.lgchannels.com/live/1", .str "", .list []⟩ : ChannelInfo).stream_url
      = .str "https://us.lgchannels.com/live/1" ∧
    (⟨.none, .str "Unknown", .str "0", .str "http://cdn/x.png",
        .str "https://us.lgchannels.com/live/1", .str "", .list []⟩ : ChannelInfo).logo
      = .str "http://cdn/x.png" := by
  constructor
  · have h := (url_rewrite
      [("streamUrl", .str "/live/1"), ("logoUrl", .str "http://cdn/x.png")]
      ⟨.none, .str "Unknown", .str "0", .str "http://cdn/x.png",
        .str "https://us.lgchannels.com/live/1", .str "", .list []⟩
      "/live/1" rfl).1 rfl
    exact h.trans (by rfl)
  · have h := (url_rewrite
      [("streamUrl", .str "/live/1"), ("logoUrl", .str "http://cdn/x.png")]
      ⟨.none, .str "Unknown", .str "0", .str "http://cdn/x.png",
        .str "https://us.lgchannels.com/live/1", .str "", .list []⟩
      "http://cdn/x.png" rfl).2 rfl
    exact h.trans (by rfl)

/-- C9 (amended): the normalized record's name equals the raw entry's
`name` value whenever the key is present — even when that value is null —
and defaults to `"Unknown"` only when the key is missing. This is the
semantics of `channel.get('name', 'Unknown')`. -/
theorem name_default (d : List (String × PyVal)) (info : ChannelInfo)
    (hp : processChannel (.dict d) = .ok info) :
    info.name = dictGet d "name" (.str "Unknown") := by
  rw [processChannel_dict] at hp
  cases hstream : fixUrl (dictGet d "streamUrl" (.str "")) with
  | error e =>
      rw [hstream, exceptBind_error] at hp
      exact absurd hp (by simp)
  | ok sv =>
      rw [hstream, exceptBind_ok] at hp
      cases hlogo : fixUrl (dictGet d "logoUrl" (.str "")) with
      | error e =>
          rw [hlogo, exceptBind_error] at hp
          exact absurd hp (by simp)
      | ok lv =>
          rw [hlogo, exceptBind_ok] at hp
          have := Except.ok.inj hp
          rw [← this]

/-- Witness for C9's amended statement: a raw entry with no `name` key
normalizes to the name `"Unknown"`. -/
theorem name_default_witness :
    (⟨.str "c9", .str "Unknown", .str "0", .str "", .str "", .str "",
        .list []⟩ : ChannelInfo).name
      = dictGet [("channelId", .str "c9")] "name" (.str "Unknown") :=
  name_default [("channelId", .str "c9")]
    ⟨.str "c9", .str "Unknown", .str "0", .str "", .str "", .str "", .list []⟩ rfl

/-- Counterexample for C9 as stated: a raw entry whose `name` field is
present but null normalizes to a null name, not to `"Unknown"`. -/
theorem name_null_counterexample :
    (processChannel (.dict [("channelId", .str "c1"), ("name", PyVal.none)])).map
        ChannelInfo.name
      = .ok PyVal.none ∧ PyVal.none ≠ PyVal.str "Unknown" :=
  ⟨rfl, fun h => PyVal.noConfusion h⟩

/-- C8 (the code contradicts the claim): with one well-formed entry
followed by a malformed non-dict entry, the whole batch aborts with an
uncaught `AttributeError` instead of yielding the well-formed record plus
a warning. The `except` handler at script line 114 itself evaluates
`channel.get('channelId')`, which raises again when the entry has no
`.get`. The first conjunct shows the well-formed entry alone is
processed; the second and third show the batch and `get_channels` die on
the malformed entry. -/
theorem malformed_entry_aborts_batch :
    channelsLoop [.dict [("channelId", .str "ok1"), ("streamUrl", .str "http://a/s")]]
      = .ok ([⟨.str "ok1", .str "Unknown", .str "0", .str "", .str "http://a/s",
          .str "", .list []⟩], []) ∧
    channelsLoop [.dict [("channelId", .str "ok1"), ("streamUrl", .str "http://a/s")],
        .str "bad"]
      = .error .attributeError ∧
    get_channels (some (.dict [("channels",
        .list [.dict [("channelId", .str "ok1"), ("streamUrl", .str "http://a/s")],
          .str "bad"])]))
      = .error .attributeError :=
  ⟨rfl, rfl, rfl⟩

lemma mainRun_eq (resp : Option PyVal) (epg : PyVal → List PyVal) :
    mainRun resp epg
      = Except.bind (get_channels resp) (fun p =>
          if p.1.isEmpty then .ok []
          else Except.bind (generate_m3u_playlist p.1) (fun m3u =>
            .ok [.m3uFile m3u, .epgFile (generate_epg_xml p.1 epg)])) := rfl

/-- C6: when the lineup fetch fails all retries (default budget), or the
response is a dict without the `"channels"` key, the normalized channel
list is empty and the run aborts before writing anything: `main` produces
no artifacts at all. -/
theorem no_channels_no_artifacts (epg : PyVal → List PyVal) :
    (∀ outcomes : Nat → AttemptOutcome, (∀ i, (outcomes i).isFailure = true) →
      get_channels (fetch_data outcomes 2).1 = .ok ([], []) ∧
      mainRun (fetch_data outcomes 2).1 epg = .ok []) ∧
    (∀ d : List (String × PyVal), dictLookup d "channels" = Option.none →
      get_channels (some (.dict d)) = .ok ([], []) ∧
      mainRun (some (.dict d)) epg = .ok []) := by
  constructor
  · intro outcomes hfail
    rw [fetch_all_fail outcomes hfail]
    exact ⟨rfl, rfl⟩
  · intro d hd
    have hg : get_channels (some (.dict d)) = .ok ([], []) := by
      simp only [get_channels, pyContains]
      rw [hd]
      split <;> rfl
    refine ⟨hg, ?_⟩
    rw [mainRun_eq, hg, exceptBind_ok]
    rfl

/-- Witness for C6: a fetch whose three attempts all fail, and a concrete
response lacking the `"channels"` key, each produce no artifacts. -/
theorem no_channels_no_artifacts_witness :
    mainRun (fetch_data (fun _ => AttemptOutcome.httpError) 2).1 (fun _ => []) = .ok [] ∧
    mainRun (some (.dict [("foo", .int 1)])) (fun _ => []) = .ok [] :=
  ⟨((no_channels_no_artifacts (fun _ => [])).1 (fun _ => .httpError) (fun _ => rfl)).2,
    ((no_channels_no_artifacts (fun _ => [])).2 [("foo", .int 1)] rfl).2⟩

lemma asStrList_map (l : List String) : asStrList (l.map PyVal.str) = .ok l := by
  induction l with
  | nil => rfl
  | cons s rest ih =>
      simp only [List.map_cons, asStrList, ih]
      rfl

lemma m3uEntryOf_toInfo (t : TChannel) :
    m3uEntryOf (TChannel.toInfo t) = .ok (specM3uEntry t) := by
  show Except.bind (pyJoin "," (.list (t.categories.map PyVal.str))) _ = _
  rw [show pyJoin "," (.list (t.categories.map PyVal.str))
      = (asStrList (t.categories.map PyVal.str)).map (String.intercalate ",") from rfl,
    asStrList_map]
  rfl

lemma m3uBody_cons (c : ChannelInfo) (rest : List ChannelInfo) :
    m3uBody (c :: rest)
      = if (!pyTruthy c.stream_url) = true then m3uBody rest
        else Except.bind (m3uEntryOf c) (fun entry =>
          Except.bind (m3uBody rest) (fun body => .ok (entry ++ body))) := rfl

lemma m3uBody_map (ts : List TChannel) :
    m3uBody (ts.map TChannel.toInfo)
      = .ok (concatStrs ((ts.filter fun t => t.stream_url != "").map specM3uEntry)) := by
  induction ts with
  | nil => rfl
  | cons t rest ih =>
      rw [List.map_cons, m3uBody_cons]
      by_cases hs : t.stream_url = ""
      · rw [if_pos (by simp [TChannel.toInfo, pyTruthy, hs]), ih]
        rw [List.filter_cons_of_neg (by simp [hs])]
      · rw [if_neg (by simp [TChannel.toInfo, pyTruthy, hs]),
          m3uEntryOf_toInfo, exceptBind_ok, ih, exceptBind_ok]
        rw [List.filter_cons_of_pos (by simp [hs])]
        rfl

/-- C1: for every list of canonical channel records, the rendered
playlist is the directive line `#EXTM3U x-tvg-url=<epg-filename>` followed
by, for each channel with a non-empty stream URL and in input order,
exactly one two-line `#EXTINF`/URL entry, and nothing for channels whose
stream URL is empty. -/
theorem playlist_rendering (ts : List TChannel) :
    generate_m3u_playlist (ts.map TChannel.toInfo)
      = .ok ("#EXTM3U x-tvg-url=" ++ EPG_FILENAME ++ "\n" ++
          concatStrs ((ts.filter fun t => t.stream_url != "").map specM3uEntry)) := by
  show (m3uBody (ts.map TChannel.toInfo)).map _ = _
  rw [m3uBody_map]
  rfl

lemma buildProgramme_tag (a p : PyVal) (e : XmlNode)
    (h : (buildProgramme a p).toOption = some e) : e.tag = "programme" := by
  cases p with
  | dict d =>
      have he : e = buildProgrammeDict a d := by
        simpa [buildProgramme, Except.toOption] using h.symm
      rw [he]
      rfl
  | none => exact absurd h (by simp [buildProgramme, Except.toOption])
  | bool b => exact absurd h (by simp [buildProgramme, Except.toOption])
  | int n => exact absurd h (by simp [buildProgramme, Except.toOption])
  | str s => exact absurd h (by simp [buildProgramme, Except.toOption])
  | list l => exact absurd h (by simp [buildProgramme, Except.toOption])

/-- C4: the rendered guide contains exactly one `<channel>` element per
input channel record, in input order — regardless of what programs each
channel has — and each carries an `id` attribute, a `display-name` child,
and an `icon` child exactly when the channel's logo is truthy (for string
logos: non-empty). -/
theorem guide_channel_elements (channels : List ChannelInfo) (epg : PyVal → List PyVal) :
    ((generate_epg_xml channels epg).children.filter (fun n => n.tag == "channel"))
      = channels.map (fun c =>
          XmlNode.elem "channel" [("id", .str (pyStr c.id))] Option.none
            ([.elem "display-name" [] (some c.name) []] ++
              (if pyTruthy c.logo then [.elem "icon" [("src", c.logo)] Option.none []]
                else []))) := by
  show ((channels.map channelXmlElem ++
      (channels.map fun c => (epg c.id).filterMap
        fun p => (buildProgramme c.id p).toOption).flatten).filter
      fun n => n.tag == "channel") = _
  rw [List.filter_append]
  have h1 : (channels.map channelXmlElem).filter (fun n => n.tag == "channel")
      = channels.map channelXmlElem := by
    rw [List.filter_eq_self]
    intro a ha
    rcases List.mem_map.mp ha with ⟨c, _, rfl⟩
    rfl
  have h2 : ((channels.map fun c => (epg c.id).filterMap
        fun p => (buildProgramme c.id p).toOption).flatten).filter
        (fun n => n.tag == "channel") = [] := by
    rw [List.filter_eq_nil_iff]
    intro a ha
    rcases List.mem_flatten.mp ha with ⟨l, hl, hal⟩
    rcases List.mem_map.mp hl with ⟨c, _, rfl⟩
    rcases List.mem_filterMap.mp hal with ⟨p, _, hp⟩
    have ht := buildProgramme_tag c.id p a hp
    simp [ht]
  rw [h1, h2, List.append_nil]
  rfl

lemma genreCategoryElems_filter (g : Option PyVal) :
    (genreCategoryElems g).filter (fun n => n.tag == "category")
      = genreCategoryElems g := by
  cases g with
  | none => rfl
  | some v =>
      cases v with
      | list l =>
          show ((l.map fun g => XmlNode.elem "category" [] (some g) []).filter
              fun n => n.tag == "category")
            = l.map fun g => XmlNode.elem "category" [] (some g) []
          rw [List.filter_eq_self]
          intro a ha
          rcases List.mem_map.mp ha with ⟨x, _, rfl⟩
          rfl
      | none => rfl
      | bool b => rfl
      | int n => rfl
      | str s => rfl
      | dict m => rfl

/-- C5: within a rendered programme element, a genre given as a list of
`n` strings yields exactly those `n` `<category>` children in order, a
genre given as a single value yields exactly one, and an absent genre
yields none. -/
theorem programme_category_elements (chanId : PyVal) (d : List (String × PyVal)) :
    ((buildProgrammeDict chanId d).children.filter (fun n => n.tag == "category"))
      = (match dictLookup d "genre" with
          | Option.none => []
          | some (.list l) => l.map fun g => XmlNode.elem "category" [] (some g) []
          | some v => [XmlNode.elem "category" [] (some v) []]) := by
  have hstep : ((buildProgrammeDict chanId d).children.filter
        (fun n => n.tag == "category"))
      = genreCategoryElems (dictLookup d "genre") := by
    show (([XmlNode.elem "title" [] (some (dictGet d "title" (.str "Unknown"))) []] ++
        (match dictLookup d "description" with
          | some v => [XmlNode.elem "desc" [] (some v) []]
          | Option.none => []) ++
        genreCategoryElems (dictLookup d "genre")).filter
        fun n : XmlNode => n.tag == "category") = _
    rw [List.filter_append, List.filter_append]
    have ht : ([XmlNode.elem "title" [] (some (dictGet d "title" (.str "Unknown"))) []].filter
        fun n : XmlNode => n.tag == "category") = [] := rfl
    have hd : ((match dictLookup d "description" with
          | some v => [XmlNode.elem "desc" [] (some v) []]
          | Option.none => []).filter fun n : XmlNode => n.tag == "category") = [] := by
      cases dictLookup d "description" with
      | none => rfl
      | some v => rfl
    rw [ht, hd, genreCategoryElems_filter, List.nil_append, List.nil_append]
  rw [hstep]
  cases dictLookup d "genre" with
  | none => rfl
  | some v => cases v <;> rfl
